import Mathlib

/-!
Verification of the claude-server auxiliary scripts.

This file gives a shallow embedding of the three Python scripts of the
repository:

* `validate-image-e2e-test.py` — the static pattern auditor,
* `test-image-analysis.py`     — the synthetic image generator/validator,
* `debug-auth-test.py`         — the authentication probe,

and proves (or refutes) the claims of the specification against them.
The embedding is faithful to the source: the Python regex engine is
abstracted as an oracle `reSearch : String → String → Bool` (one call of
`re.search(pattern, content, re.IGNORECASE | re.DOTALL)` is one oracle
query), the filesystem is a map from paths to optional contents, and
Python truthiness of `read_file` results (None or the empty string are
falsy) is modelled explicitly.
-/

/-! ## Shared helpers -/

/-- Substring containment on character lists: Python `needle in hay`. -/
def containsL (needle : List Char) : List Char → Bool
  | [] => needle.isEmpty
  | b :: bs => List.isPrefixOf needle (b :: bs) || containsL needle bs

/-- Python `needle in hay` on strings. -/
def strContains (hay needle : String) : Bool :=
  containsL needle.data hay.data

/-- Python truthiness of a `read_file` result: `None` and `""` are falsy. -/
def truthy : Option String → Bool
  | none => false
  | some s => !(s == "")

/-! ## Pattern auditor (`validate-image-e2e-test.py`) -/

/-- The filesystem as the auditor sees it: `os.path.exists`, and
`read_file` returning `none` when the read raises (file absent or
unreadable). -/
structure AuditorFS where
  pathExists : String → Bool
  read : String → Option String

/-- Environment of one auditor run: the filesystem and the regex oracle.
`reSearch pat s` stands for
`re.search(pat, s, re.IGNORECASE | re.DOTALL) is not None`. -/
structure AuditorEnv where
  fs : AuditorFS
  reSearch : String → String → Bool

/-- Hardcoded path of the target test file. -/
def test_file : String :=
  "/home/jsbattig/Dev/claude-server/claude-batch-server/tests/ClaudeBatchServer.IntegrationTests/ImageAnalysisE2ETests.cs"

/-- Hardcoded path of the reference (known-good) test file. -/
def working_test : String :=
  "/home/jsbattig/Dev/claude-server/claude-batch-server/tests/ClaudeBatchServer.IntegrationTests/ComplexE2ETests.cs"

/-- Hardcoded path of the test image. -/
def image_path : String :=
  "/home/jsbattig/Dev/claude-server/claude-batch-server/tests/ClaudeBatchServer.IntegrationTests/test-image.png"

/-- Hardcoded path of the integration-test project file. -/
def csproj_path : String :=
  "/home/jsbattig/Dev/claude-server/claude-batch-server/tests/ClaudeBatchServer.IntegrationTests/ClaudeBatchServer.IntegrationTests.csproj"

/-- Hardcoded path of the `.env` file. -/
def env_path : String :=
  "/home/jsbattig/Dev/claude-server/claude-batch-server/.env"

/-- The 13 structure patterns of `validate_test_structure`. -/
def patterns_to_check : List String :=
  [ "WebApplicationFactory<Program>"
  , "IClassFixture<WebApplicationFactory<Program>>"
  , "\\.env"
  , "TEST_USERNAME.*TEST_PASSWORD"
  , "LoginRequest"
  , "PostAsJsonAsync.*auth/login"
  , "CreateAuthenticatedClient"
  , "Authorization.*Bearer"
  , "MultipartFormDataContent"
  , "MediaTypeHeaderValue.*image/png"
  , "PostAsync.*images"
  , "JobStatusResponse"
  , "\\.Should\\(\\)" ]

/-- The 9 image patterns of `validate_image_specific_logic`. -/
def image_patterns : List String :=
  [ "test-image\\.png"
  , "File\\.ReadAllBytesAsync"
  , "ByteArrayContent.*imageBytes"
  , "image.*analysis.*prompt"
  , "shapes.*colors.*text"
  , "rectangle.*circle.*triangle"
  , "blue.*red.*green"
  , "Output.*Should.*Contain"
  , "Length.*Should.*BeGreaterThan" ]

/-- The 6 authentication patterns of `validate_authentication_pattern`. -/
def auth_patterns : List String :=
  [ "var username = Environment\\.GetEnvironmentVariable\\(\"TEST_USERNAME\"\\);"
  , "var password = Environment\\.GetEnvironmentVariable\\(\"TEST_PASSWORD\"\\);"
  , "var loginRequest = new LoginRequest"
  , "Username = username,\\s*Password = password"
  , "await _client\\.PostAsJsonAsync\\(\"/auth/login\""
  , "CreateAuthenticatedClient\\(loginResult\\.Token\\)" ]

/-- The 4 required NuGet packages of `validate_project_dependencies`. -/
def required_packages : List String :=
  [ "Microsoft.AspNetCore.Mvc.Testing"
  , "FluentAssertions"
  , "xunit"
  , "DotNetEnv" ]

/-- The 2 required variables of `validate_env_file`. -/
def required_vars : List String :=
  [ "TEST_USERNAME", "TEST_PASSWORD" ]

/-- `validate_test_structure`: both C# files must exist, both reads must
be truthy, then every structure pattern is searched in the TARGET
content only (the reference content is read but never searched). -/
def validate_test_structure (env : AuditorEnv) : Bool :=
  if !(env.fs.pathExists test_file) then false
  else if !(env.fs.pathExists working_test) then false
  else
    let tc := env.fs.read test_file
    let wc := env.fs.read working_test
    if !(truthy tc) || !(truthy wc) then false
    else patterns_to_check.all fun p => env.reSearch p (tc.getD "")

/-- `validate_image_specific_logic`: reads the target file (no existence
check; a failed read is falsy) and searches the 9 image patterns in it. -/
def validate_image_specific_logic (env : AuditorEnv) : Bool :=
  let tc := env.fs.read test_file
  if !(truthy tc) then false
  else image_patterns.all fun p => env.reSearch p (tc.getD "")

/-- `validate_test_image_exists`: true iff the image path exists; the
file-size warnings are print-only and never change the result. -/
def validate_test_image_exists (env : AuditorEnv) : Bool :=
  env.fs.pathExists image_path

/-- `validate_authentication_pattern`: reads both C# files (no existence
check), requires both to be truthy, then searches the 6 auth patterns in
the TARGET content only. -/
def validate_authentication_pattern (env : AuditorEnv) : Bool :=
  let tc := env.fs.read test_file
  let wc := env.fs.read working_test
  if !(truthy tc) || !(truthy wc) then false
  else auth_patterns.all fun p => env.reSearch p (tc.getD "")

/-- `validate_project_dependencies`: the csproj must exist and read
truthy, and each required package name must occur as a substring
(Python `in`, not a regex search). -/
def validate_project_dependencies (env : AuditorEnv) : Bool :=
  if !(env.fs.pathExists csproj_path) then false
  else
    let c := env.fs.read csproj_path
    if !(truthy c) then false
    else required_packages.all fun pkg => strContains (c.getD "") pkg

/-- `validate_env_file`: the `.env` must exist and read truthy, and each
required variable name must occur as a substring. -/
def validate_env_file (env : AuditorEnv) : Bool :=
  if !(env.fs.pathExists env_path) then false
  else
    let c := env.fs.read env_path
    if !(truthy c) then false
    else required_vars.all fun v => strContains (c.getD "") v

/-- The `validation_results` list built by `main`. -/
def validation_results (env : AuditorEnv) : List (String × Bool) :=
  [ ("Test Structure", validate_test_structure env)
  , ("Image Logic", validate_image_specific_logic env)
  , ("Test Image File", validate_test_image_exists env)
  , ("Authentication", validate_authentication_pattern env)
  , ("Dependencies", validate_project_dependencies env)
  , ("Environment", validate_env_file env) ]

/-- `all_passed` in `main`: every section result is true. -/
def all_passed (env : AuditorEnv) : Bool :=
  (validation_results env).all (fun r => r.2)

/-- The exit code chosen by `main`: 0 when all sections passed, else 1. -/
def auditor_exit_code (env : AuditorEnv) : Nat :=
  if all_passed env then 0 else 1

/-- The full fixed pattern list (13 + 9 + 6 = 28 regexes). -/
def all_auditor_patterns : List String :=
  patterns_to_check ++ image_patterns ++ auth_patterns

/-- Every regex of the fixed lists matches in the target file content. -/
def all_patterns_match_target (env : AuditorEnv) : Bool :=
  all_auditor_patterns.all fun p =>
    env.reSearch p ((env.fs.read test_file).getD "")

/-! ## Image generator/validator (`test-image-analysis.py`) -/

/-- The colors used by `create_test_image`. -/
inductive PColor
  | white
  | black
  | blue
  | red
  | green
deriving DecidableEq

/-- A loaded PIL font; only `ImageFont.load_default()` is ever used. -/
inductive PFontKind
  | loadDefault
deriving DecidableEq

/-- One `ImageDraw` call, in order of execution. -/
inductive DrawOp
  | rectangle (x0 y0 x1 y1 : Int) (fill : PColor) (outline : PColor) (width : Nat)
  | ellipse (x0 y0 x1 y1 : Int) (fill : PColor) (outline : PColor) (width : Nat)
  | polygon (pts : List (Int × Int)) (fill : PColor) (outline : PColor) (width : Nat)
  | text (x y : Int) (str : String) (fill : PColor) (font : Option PFontKind)
deriving DecidableEq

/-- An in-memory PIL image: its mode, pixel size, background color and
the draw operations applied to it. -/
structure PImage where
  mode : String
  size : Nat × Nat
  background : PColor
  ops : List DrawOp
deriving DecidableEq

/-- A file on disk as the image script sees it: its byte size
(`os.path.getsize`) and, when `Image.open` succeeds, the decoded image;
`decoded = none` means `Image.open` raises on this file. -/
structure ImgFile where
  bytes : Nat
  decoded : Option PImage
deriving DecidableEq

/-- The filesystem of the image script: path to optional file. -/
structure ImgFS where
  files : String → Option ImgFile

/-- Ambient environment of the image script: whether PIL imports, whether
the hardcoded test directory exists, whether `ImageFont.load_default()`
succeeds, and the PNG encoder (giving the byte size of a saved image). -/
structure ImgEnv where
  pilAvailable : Bool
  testDirExists : Bool
  fontOk : Bool
  pngSize : PImage → Nat

/-- Hardcoded path of the generated test image. -/
def test_image_path : String :=
  "/home/jsbattig/Dev/claude-server/claude-batch-server/tests/ClaudeBatchServer.IntegrationTests/test-image.png"

/-- `create_test_image`: builds a 400x300 RGB white image, draws a blue
rectangle, a red ellipse and a green triangle (each outlined black,
width 2), two black text lines (font per `ImageFont.load_default()`
availability), saves it at `output_path`, and returns the image. -/
def create_test_image (env : ImgEnv) (fs : ImgFS) (output_path : String) :
    PImage × ImgFS :=
  let fnt : Option PFontKind := if env.fontOk then some .loadDefault else none
  let img : PImage :=
    { mode := "RGB"
    , size := (400, 300)
    , background := .white
    , ops :=
        [ .rectangle 50 50 150 100 .blue .black 2
        , .ellipse 200 50 300 150 .red .black 2
        , .polygon [(100, 200), (150, 250), (50, 250)] .green .black 2
        , .text 50 10 "Test Image" .black fnt
        , .text 50 270 "Shapes: Rectangle, Circle, Triangle" .black fnt ] }
  (img, ⟨fun p => if p = output_path then some ⟨env.pngSize img, some img⟩
                  else fs.files p⟩)

/-- `analyze_test_image`: false when the file is absent, when
`Image.open` raises, when the byte size is `< 100`, or when the decoded
dimensions differ from `(400, 300)`; true otherwise. -/
def analyze_test_image (fs : ImgFS) (path : String) : Bool :=
  match fs.files path with
  | none => false
  | some f =>
    match f.decoded with
    | none => false
    | some img =>
      if f.bytes < 100 then false
      else if img.size ≠ (400, 300) then false
      else true

/-- `validate_test_setup`: PIL must import and the test directory exist. -/
def validate_test_setup (env : ImgEnv) : Bool :=
  env.pilAvailable && env.testDirExists

/-- Observable events of one run of the main function of the image script. -/
inductive ImgEv
  | created (path : String)
  | analyzed (path : String)
deriving DecidableEq

/-- `main` of the image script: validate the setup (exit 1 on failure),
create the test image only when no file exists at the hardcoded path,
then analyze the file at that path (exit 1 on failure, else exit 0).
Returns the final filesystem, the event trace and the exit code. -/
def img_main (env : ImgEnv) (fs : ImgFS) : ImgFS × List ImgEv × Nat :=
  if !(validate_test_setup env) then (fs, [], 1)
  else if (fs.files test_image_path).isSome then
    if analyze_test_image fs test_image_path
    then (fs, [.analyzed test_image_path], 0)
    else (fs, [.analyzed test_image_path], 1)
  else
    let fs2 := (create_test_image env fs test_image_path).2
    if analyze_test_image fs2 test_image_path
    then (fs2, [.created test_image_path, .analyzed test_image_path], 0)
    else (fs2, [.created test_image_path, .analyzed test_image_path], 1)

/-! ## Authentication probe (`debug-auth-test.py`) -/

/-- A Python exception value (any `Exception` subclass), by message. -/
structure PyErr where
  msg : String
deriving DecidableEq

/-- An HTTP response as `test_auth` consumes it: status code, body text,
and the result of looking up the token field of the parsed JSON body —
an error when the body is
not a JSON object, `none` when the field is absent, the string value
otherwise. -/
structure HttpResp where
  status : Nat
  text : String
  jsonToken : Except PyErr (Option String)

/-- The external world of one `test_auth` run: what
`POST /auth/login` and `GET /repositories` would yield (either a
response or a raised `requests` exception). -/
structure AuthWorld where
  loginResp : Except PyErr HttpResp
  repoResp : Except PyErr HttpResp

/-- The HTTP requests `test_auth` can issue, in order. -/
inductive AuthEv
  | postLogin
  | getRepos
deriving DecidableEq

/-- `test_auth`: POST the login; on non-200 print and return; parse the
token, on a falsy token (absent or empty) print and return; otherwise
GET `/repositories`. Returns the requests issued and either unit or the
exception that escaped the function. -/
def test_auth (w : AuthWorld) : List AuthEv × Except PyErr Unit :=
  match w.loginResp with
  | .error e => ([.postLogin], .error e)
  | .ok lr =>
    if lr.status ≠ 200 then ([.postLogin], .ok ())
    else
      match lr.jsonToken with
      | .error e => ([.postLogin], .error e)
      | .ok tok =>
        if tok.getD "" = "" then ([.postLogin], .ok ())
        else
          match w.repoResp with
          | .error e => ([.postLogin, .getRepos], .error e)
          | .ok _ => ([.postLogin, .getRepos], .ok ())

/-- The `__main__` block: sets two environment variables, runs
`test_auth` inside `try/except Exception`, prints any caught exception,
and falls off the end of the script. The result is the process exit
code, or an error if an exception escaped the script. -/
def auth_script_exit (w : AuthWorld) : Except PyErr Nat :=
  match (test_auth w).2 with
  | .ok _ => .ok 0
  | .error _ => .ok 0

/-! ## Theorems: image generator/validator -/

/-- Forgets the font of a text op; shape ops are unchanged. Used to
compare the drawn content of two images up to font availability. -/
def dropFont : DrawOp → DrawOp
  | .text x y s c _ => .text x y s c none
  | op => op

/-- True on the three shape-drawing ops, false on text. -/
def isShapeOp : DrawOp → Bool
  | .rectangle _ _ _ _ _ _ _ => true
  | .ellipse _ _ _ _ _ _ _ => true
  | .polygon _ _ _ _ => true
  | .text _ _ _ _ _ => false

/-- C6: `create_test_image` always returns an RGB 400x300 image on a
white background whose draw list is exactly a blue rectangle, a red
ellipse and a green triangle (each with a black outline of width 2)
followed by two lines of black text, and it persists that image at the
given output path. -/
theorem create_test_image_renders_fixed_content (env : ImgEnv) (fs : ImgFS)
    (output_path : String) :
    (create_test_image env fs output_path).1.mode = "RGB" ∧
    (create_test_image env fs output_path).1.size = (400, 300) ∧
    (create_test_image env fs output_path).1.background = PColor.white ∧
    (create_test_image env fs output_path).1.ops =
      [ DrawOp.rectangle 50 50 150 100 .blue .black 2
      , DrawOp.ellipse 200 50 300 150 .red .black 2
      , DrawOp.polygon [(100, 200), (150, 250), (50, 250)] .green .black 2
      , DrawOp.text 50 10 "Test Image" .black
          (if env.fontOk then some .loadDefault else none)
      , DrawOp.text 50 270 "Shapes: Rectangle, Circle, Triangle" .black
          (if env.fontOk then some .loadDefault else none) ] ∧
    (create_test_image env fs output_path).2.files output_path =
      some ⟨env.pngSize (create_test_image env fs output_path).1,
            some (create_test_image env fs output_path).1⟩ := by
  refine ⟨rfl, rfl, rfl, rfl, ?_⟩
  simp [create_test_image]

/-- C7: any two runs of `create_test_image` (any environments,
filesystems and paths) produce images of the same dimensions (400, 300)
with the same shapes and colors at the same positions — draw lists equal
up to the loaded font — while the persisted files may differ in byte
size (the PNG encoder is part of the environment). -/
theorem create_test_image_structure_deterministic
    (e1 e2 : ImgEnv) (fs1 fs2 : ImgFS) (p1 p2 : String) :
    ((create_test_image e1 fs1 p1).1.size = (400, 300) ∧
     (create_test_image e2 fs2 p2).1.size = (400, 300)) ∧
    (create_test_image e1 fs1 p1).1.ops.map dropFont =
      (create_test_image e2 fs2 p2).1.ops.map dropFont ∧
    (create_test_image e1 fs1 p1).1.ops.filter isShapeOp =
      (create_test_image e2 fs2 p2).1.ops.filter isShapeOp ∧
    ∃ ea eb : ImgEnv,
      ((create_test_image ea fs1 p1).2.files p1).map ImgFile.bytes ≠
        ((create_test_image eb fs1 p1).2.files p1).map ImgFile.bytes := by
  refine ⟨⟨rfl, rfl⟩, rfl, rfl,
    ⟨⟨true, true, true, fun _ => 0⟩, ⟨true, true, true, fun _ => 1⟩, ?_⟩⟩
  simp [create_test_image]

/-- Image with dimensions (400, 300) and no draw ops, used as a decoded
value in concrete filesystems. -/
def c2_img : PImage := ⟨"RGB", (400, 300), PColor.white, []⟩

/-- Concrete filesystem holding a 100-byte decodable 400x300 image. -/
def c2_fs : ImgFS :=
  ⟨fun p => if p = "/tmp/img.png" then some ⟨100, some c2_img⟩ else none⟩

/-- C2 counterexample: at a file of exactly 100 bytes that decodes to a
400x300 image, `analyze_test_image` returns true even though the size is
not greater than 100 bytes — the code rejects only sizes `< 100`. -/
theorem analyze_test_image_size100 :
    analyze_test_image c2_fs "/tmp/img.png" = true ∧
    ((c2_fs.files "/tmp/img.png").map ImgFile.bytes).getD 0 = 100 ∧
    ¬ (100 : Nat) > 100 := by
  refine ⟨by decide, by decide, by decide⟩

/-- C2 (amended): `analyze_test_image` returns true iff the file exists,
`Image.open` succeeds, the byte size is at least 100 (not: greater than
100), and the decoded dimensions are exactly (400, 300). -/
theorem analyze_test_image_true_iff (fs : ImgFS) (path : String) :
    analyze_test_image fs path = true ↔
      ∃ f img, fs.files path = some f ∧ f.decoded = some img ∧
        100 ≤ f.bytes ∧ img.size = (400, 300) := by
  unfold analyze_test_image
  cases hf : fs.files path with
  | none => simp
  | some f =>
    cases hd : f.decoded with
    | none => simp [hd]
    | some img =>
      simp only [hd]
      constructor
      · intro h
        by_cases hb : f.bytes < 100
        · simp [hb] at h
        · by_cases hs : img.size = (400, 300)
          · exact ⟨f, img, rfl, hd, Nat.le_of_not_lt hb, hs⟩
          · simp [hb, hs] at h
      · rintro ⟨f2, img2, hf2, hd2, hb2, hs2⟩
        obtain rfl : f2 = f := (Option.some.inj hf2).symm
        rw [hd] at hd2
        obtain rfl : img2 = img := (Option.some.inj hd2).symm
        simp [Nat.not_lt.mpr hb2, hs2]

/-- Environment in which the setup check of the image script passes. -/
def img_env_w : ImgEnv := ⟨true, true, true, fun _ => 0⟩

/-- Filesystem with a (non-decodable, 5-byte) file already present at
the hardcoded test-image path. -/
def img_fs_w : ImgFS :=
  ⟨fun p => if p = test_image_path then some ⟨5, none⟩ else none⟩

/-- C10: when the setup check passes and a file already exists at the
hardcoded test-image path, `main` never calls `create_test_image`, the
filesystem is returned unchanged, and the analysis step runs on the
pre-existing file as-is (the exit code is decided by analyzing the
original filesystem). -/
theorem img_main_skips_creation_when_present (env : ImgEnv) (fs : ImgFS)
    (hsetup : validate_test_setup env = true)
    (hex : (fs.files test_image_path).isSome = true) :
    (img_main env fs).1 = fs ∧
    (img_main env fs).2.1 = [ImgEv.analyzed test_image_path] ∧
    (img_main env fs).2.2 =
      (if analyze_test_image fs test_image_path then 0 else 1) := by
  unfold img_main
  rw [hsetup, hex]
  by_cases h : analyze_test_image fs test_image_path <;> simp [h]

/-- C10 witness: concrete run on a filesystem already holding a file at
the test-image path. -/
theorem img_main_skips_creation_when_present_inst :
    (img_main img_env_w img_fs_w).1 = img_fs_w ∧
    (img_main img_env_w img_fs_w).2.1 = [ImgEv.analyzed test_image_path] ∧
    (img_main img_env_w img_fs_w).2.2 =
      (if analyze_test_image img_fs_w test_image_path then 0 else 1) :=
  img_main_skips_creation_when_present img_env_w img_fs_w rfl (by decide)

/-! ## Theorems: authentication probe -/

/-- C4: whenever the login response arrives with a status other than
200, or with status 200 and a parsed JSON token that is absent or empty,
`test_auth` returns normally having issued only the login POST — the
authenticated GET `/repositories` is never sent. -/
theorem test_auth_early_return (w : AuthWorld) (lr : HttpResp)
    (hl : w.loginResp = Except.ok lr)
    (h : lr.status ≠ 200 ∨
      ∃ tok, lr.jsonToken = Except.ok tok ∧ tok.getD "" = "") :
    test_auth w = ([AuthEv.postLogin], Except.ok ()) := by
  unfold test_auth
  rw [hl]
  rcases h with h | ⟨tok, htok, hempty⟩
  · simp [h]
  · by_cases h200 : lr.status = 200
    · simp [h200, htok, hempty]
    · simp [h200]

/-- World in which login returns 401 with no token. -/
def auth_world_w : AuthWorld :=
  ⟨Except.ok ⟨401, "Unauthorized", Except.ok none⟩,
   Except.ok ⟨200, "[]", Except.ok none⟩⟩

/-- C4 witness: a 401 login answer makes `test_auth` stop after the
login request. -/
theorem test_auth_early_return_inst :
    test_auth auth_world_w = ([AuthEv.postLogin], Except.ok ()) :=
  test_auth_early_return auth_world_w ⟨401, "Unauthorized", Except.ok none⟩
    rfl (Or.inl (by decide))

/-- C9: whatever the outside world does — login failure, missing token,
failing authenticated request, or any raised exception — the probe
top-level block of the script catches every exception and the process exits with
code 0; no exception escapes the script. -/
theorem auth_script_always_exit_zero (w : AuthWorld) :
    auth_script_exit w = Except.ok 0 := by
  unfold auth_script_exit
  split <;> rfl

/-! ## Theorems: pattern auditor -/

/-- Helper: the exit code is 0 exactly when all six sections passed. -/
theorem exit_code_zero_iff (env : AuditorEnv) :
    auditor_exit_code env = 0 ↔ all_passed env = true := by
  unfold auditor_exit_code
  split <;> simp_all

/-- Helper: `all_passed` is the conjunction of the six section results. -/
theorem all_passed_unfold (env : AuditorEnv) :
    all_passed env =
      (validate_test_structure env &&
        (validate_image_specific_logic env &&
          (validate_test_image_exists env &&
            (validate_authentication_pattern env &&
              (validate_project_dependencies env && validate_env_file env))))) := by
  simp [all_passed, validation_results]

/-- Filesystem where every path except the `.env` exists and every read
yields the string "content". -/
def c1_fs : AuditorFS := ⟨fun p => !(p == env_path), fun _ => some "content"⟩

/-- Environment for the C1 counterexample: all 28 regexes match
everything, but the `.env` file is missing. -/
def c1_env : AuditorEnv := ⟨c1_fs, fun _ _ => true⟩

/-- C1 counterexample: with every regex matching the target file but the
`.env` file absent, the auditor exits with code 1, refuting "exit code
0 iff every regex matches the target file". -/
theorem auditor_exit_iff_refuted :
    all_patterns_match_target c1_env = true ∧
    auditor_exit_code c1_env = 1 ∧
    ¬ (auditor_exit_code c1_env = 0 ↔ all_patterns_match_target c1_env = true) := by
  decide

/-- Helper: `validate_test_structure` as the conjunction of the two
existence gates, the two truthiness gates, and the structure patterns
evaluated on the target content. -/
theorem validate_test_structure_eq (env : AuditorEnv) :
    validate_test_structure env =
      (env.fs.pathExists test_file && env.fs.pathExists working_test &&
        truthy (env.fs.read test_file) && truthy (env.fs.read working_test) &&
        patterns_to_check.all fun p =>
          env.reSearch p ((env.fs.read test_file).getD "")) := by
  unfold validate_test_structure
  cases h1 : env.fs.pathExists test_file <;>
    cases h2 : env.fs.pathExists working_test <;>
      cases h3 : truthy (env.fs.read test_file) <;>
        cases h4 : truthy (env.fs.read working_test) <;>
          simp [h1, h2, h3, h4]

/-- Helper: `validate_image_specific_logic` as its truthiness gate and
the image patterns evaluated on the target content. -/
theorem validate_image_specific_logic_eq (env : AuditorEnv) :
    validate_image_specific_logic env =
      (truthy (env.fs.read test_file) &&
        image_patterns.all fun p =>
          env.reSearch p ((env.fs.read test_file).getD "")) := by
  unfold validate_image_specific_logic
  cases h : truthy (env.fs.read test_file) <;> simp [h]

/-- Helper: `validate_authentication_pattern` as its two truthiness
gates and the auth patterns evaluated on the target content. -/
theorem validate_authentication_pattern_eq (env : AuditorEnv) :
    validate_authentication_pattern env =
      (truthy (env.fs.read test_file) && truthy (env.fs.read working_test) &&
        auth_patterns.all fun p =>
          env.reSearch p ((env.fs.read test_file).getD "")) := by
  unfold validate_authentication_pattern
  cases h1 : truthy (env.fs.read test_file) <;>
    cases h2 : truthy (env.fs.read working_test) <;> simp [h1, h2]

/-- C1 (amended): for every run, the auditor exits with code 0 if and
only if every regex of the three fixed lists (13 + 9 + 6) matches in the
content of the target file AND the auxiliary section checks pass (both
C# files exist and read non-empty, the test image exists, the dependency
section passes, the environment section passes); and the exit code is
always 0 or 1, so in every other case it exits with code 1. -/
theorem auditor_exit_zero_iff_all_patterns (env : AuditorEnv) :
    (auditor_exit_code env = 0 ↔
      (all_patterns_match_target env = true ∧
        env.fs.pathExists test_file = true ∧
        env.fs.pathExists working_test = true ∧
        truthy (env.fs.read test_file) = true ∧
        truthy (env.fs.read working_test) = true ∧
        validate_test_image_exists env = true ∧
        validate_project_dependencies env = true ∧
        validate_env_file env = true)) ∧
    (auditor_exit_code env = 0 ∨ auditor_exit_code env = 1) := by
  have hone : auditor_exit_code env = 0 ∨ auditor_exit_code env = 1 := by
    unfold auditor_exit_code
    split
    · exact Or.inl rfl
    · exact Or.inr rfl
  refine ⟨?_, hone⟩
  rw [exit_code_zero_iff, all_passed_unfold, validate_test_structure_eq,
    validate_image_specific_logic_eq, validate_authentication_pattern_eq]
  unfold all_patterns_match_target all_auditor_patterns
  rw [List.all_append, List.all_append]
  simp only [Bool.and_eq_true]
  tauto

/-- Filesystem for the C1 witness: everything exists; the csproj lists
all four packages, the `.env` both variables. -/
def c1w_fs : AuditorFS :=
  ⟨fun _ => true,
   fun p =>
     if p = csproj_path then
       some "Microsoft.AspNetCore.Mvc.Testing FluentAssertions xunit DotNetEnv"
     else if p = env_path then some "TEST_USERNAME=a TEST_PASSWORD=b"
     else some "content"⟩

/-- Environment for the C1 witness: every regex matches everything. -/
def c1w_env : AuditorEnv := ⟨c1w_fs, fun _ _ => true⟩

/-- C1 witness: on a fully healthy filesystem with all regexes matching,
the auditor exits with code 0. -/
theorem auditor_exit_zero_iff_all_patterns_inst :
    auditor_exit_code c1w_env = 0 :=
  (auditor_exit_zero_iff_all_patterns c1w_env).1.mpr
    ⟨by decide, by decide, by decide, by decide, by decide, by decide,
     by decide, by decide⟩

/-- C3: a missing `.env`, a missing test image and a missing csproj each
independently make the corresponding section check fail, and any such
failure makes the auditor exit with code 1. -/
theorem auditor_missing_inputs_fail (env : AuditorEnv) :
    (env.fs.pathExists env_path = false → validate_env_file env = false) ∧
    (env.fs.pathExists image_path = false →
      validate_test_image_exists env = false) ∧
    (env.fs.pathExists csproj_path = false →
      validate_project_dependencies env = false) ∧
    ((validate_env_file env = false ∨ validate_test_image_exists env = false ∨
        validate_project_dependencies env = false) →
      auditor_exit_code env = 1) := by
  refine ⟨fun h => ?_, fun h => h, fun h => ?_, fun h => ?_⟩
  · simp [validate_env_file, h]
  · simp [validate_project_dependencies, h]
  · have hap : all_passed env = false := by
      rw [all_passed_unfold]
      rcases h with h | h | h <;> simp [h]
    simp [auditor_exit_code, hap]

/-- Filesystem on which nothing exists and nothing is readable. -/
def c3_fs : AuditorFS := ⟨fun _ => false, fun _ => none⟩

/-- Environment for the C3 witness. -/
def c3_env : AuditorEnv := ⟨c3_fs, fun _ _ => true⟩

/-- C3 witness: with `.env`, test image and csproj all absent, each of
the three section checks fails and the auditor exits with code 1. -/
theorem auditor_missing_inputs_fail_inst :
    validate_env_file c3_env = false ∧
    validate_test_image_exists c3_env = false ∧
    validate_project_dependencies c3_env = false ∧
    auditor_exit_code c3_env = 1 :=
  ⟨(auditor_missing_inputs_fail c3_env).1 rfl,
   (auditor_missing_inputs_fail c3_env).2.1 rfl,
   (auditor_missing_inputs_fail c3_env).2.2.1 rfl,
   (auditor_missing_inputs_fail c3_env).2.2.2
     (Or.inl ((auditor_missing_inputs_fail c3_env).1 rfl))⟩

/-- Filesystem whose reference file reads "REF" and every other path
reads "TGT"; all paths exist. -/
def c5_fs : AuditorFS :=
  ⟨fun _ => true, fun p => if p = working_test then some "REF" else some "TGT"⟩

/-- Environment for the C5 counterexample: a regex matches a content iff
that content is the target content "TGT". -/
def c5_env : AuditorEnv := ⟨c5_fs, fun _ c => c == "TGT"⟩

/-- C5 counterexample: both pattern sections succeed although not a
single regex matches the content of the reference file — the regexes are
never applied to the reference file, only to the target file. -/
theorem auditor_patterns_reference_unchecked :
    validate_test_structure c5_env = true ∧
    validate_authentication_pattern c5_env = true ∧
    (patterns_to_check.all fun p =>
      c5_env.reSearch p ((c5_env.fs.read working_test).getD "")) = false ∧
    (auth_patterns.all fun p =>
      c5_env.reSearch p ((c5_env.fs.read working_test).getD "")) = false := by
  decide

/-- C5 (amended): provided both C# files exist and read non-empty, the
two pattern sections equal their pattern lists evaluated on the TARGET
content of the target file alone; the reference file is read only for the
existence/non-emptiness gate and no regex is applied to it. -/
theorem auditor_patterns_target_only (env : AuditorEnv)
    (h1 : env.fs.pathExists test_file = true)
    (h2 : env.fs.pathExists working_test = true)
    (h3 : truthy (env.fs.read test_file) = true)
    (h4 : truthy (env.fs.read working_test) = true) :
    validate_test_structure env =
      (patterns_to_check.all fun p =>
        env.reSearch p ((env.fs.read test_file).getD "")) ∧
    validate_authentication_pattern env =
      (auth_patterns.all fun p =>
        env.reSearch p ((env.fs.read test_file).getD "")) := by
  unfold validate_test_structure validate_authentication_pattern
  simp [h1, h2, h3, h4]

/-- Filesystem for the C5 witness: everything exists and reads "x". -/
def c5w_fs : AuditorFS := ⟨fun _ => true, fun _ => some "x"⟩

/-- Environment for the C5 witness: no regex matches anything. -/
def c5w_env : AuditorEnv := ⟨c5w_fs, fun _ _ => false⟩

/-- C5 witness: concrete instance of the amended characterization. -/
theorem auditor_patterns_target_only_inst :
    validate_test_structure c5w_env =
      (patterns_to_check.all fun p =>
        c5w_env.reSearch p ((c5w_env.fs.read test_file).getD "")) ∧
    validate_authentication_pattern c5w_env =
      (auth_patterns.all fun p =>
        c5w_env.reSearch p ((c5w_env.fs.read test_file).getD "")) :=
  auditor_patterns_target_only c5w_env rfl rfl rfl rfl

/-- C8: the result of `validate_test_structure` does not depend on the
content of the reference file: two environments agreeing on path existence,
on the regex oracle and on the content of the target file, whose reference
reads are both truthy (readable and non-empty), produce the same result. -/
theorem validate_test_structure_reference_independent (e1 e2 : AuditorEnv)
    (hpe : e1.fs.pathExists = e2.fs.pathExists)
    (hre : e1.reSearch = e2.reSearch)
    (htc : e1.fs.read test_file = e2.fs.read test_file)
    (hw1 : truthy (e1.fs.read working_test) = true)
    (hw2 : truthy (e2.fs.read working_test) = true) :
    validate_test_structure e1 = validate_test_structure e2 := by
  unfold validate_test_structure
  rw [hpe, hre, htc]
  simp only [hw1, hw2]

/-- First filesystem for the C8 witness: the reference reads "AAA". -/
def c8_fs1 : AuditorFS :=
  ⟨fun _ => true, fun p => if p = working_test then some "AAA" else some "T"⟩

/-- Second filesystem for the C8 witness: the reference reads "BBB". -/
def c8_fs2 : AuditorFS :=
  ⟨fun _ => true, fun p => if p = working_test then some "BBB" else some "T"⟩

/-- First environment for the C8 witness. -/
def c8_env1 : AuditorEnv := ⟨c8_fs1, fun _ _ => true⟩

/-- Second environment for the C8 witness. -/
def c8_env2 : AuditorEnv := ⟨c8_fs2, fun _ _ => true⟩

/-- C8 witness: two runs differing only in the reference file content
("AAA" vs "BBB") return the same result. -/
theorem validate_test_structure_reference_independent_inst :
    validate_test_structure c8_env1 = validate_test_structure c8_env2 :=
  validate_test_structure_reference_independent c8_env1 c8_env2
    rfl rfl (by decide) (by decide) (by decide)
